import Mathlib

/-!
Shallow embedding of `src/BibliographicAPI.py` (class `BibliographicalAPI`
and the data class `BookEntry`), used to settle the specification claims
about field cleaning, record sorting, and the fetch pipeline.

Python strings are modelled as Lean `String`s (operating on their `List Char`
data where the code indexes characters); Python exceptions (`IndexError`,
`ValueError`, transport-level errors from `requests`/`urllib3`) are modelled
as `Except PyError`.
-/

namespace ILS

/-- A loosely-typed value as it arrives from the decoded JSON payload:
`None`, a string, or some other (non-string) value such as a number.
This is the argument type of `__cleanStringData` and of `member["link"]`. -/
inductive PyVal where
  | none
  | str (s : String)
  | int (n : Int)
deriving DecidableEq

/-- The Python exceptions the embedded code can raise. `indexError` models
`IndexError` from indexing an empty string, `valueError` models `ValueError`
from `int()` (the spec calls it `FormatError`), `transportError` models a
`requests` transport failure after retries are exhausted (the spec's
`TransportError`). -/
inductive PyError where
  | indexError
  | valueError
  | transportError
deriving DecidableEq

/-- The list `excluded_chars` from `__cleanStringData` (line 54). -/
def excludedChars : List Char := ['/', '.', ',', '[', ']', ':', ' ']

/-- Whitespace as recognised by Python's `str.strip()`. -/
def isPySpace (c : Char) : Bool :=
  c = ' ' || c = '\t' || c = '\n' || c = '\r' || c = '\x0b' || c = '\x0c'

/-- Python `str.strip()`: remove leading and trailing whitespace. -/
def pyStrip (s : List Char) : List Char :=
  ((s.dropWhile isPySpace).reverse.dropWhile isPySpace).reverse

/-- The string branch of `BibliographicalAPI.__cleanStringData`
(lines 52-64), over the string's character data: one trailing excluded
character is dropped (`data[-1]`, line 55), then one leading excluded
character (`data[0]`, line 58), then whitespace is stripped. The accesses
`data[-1]` / `data[0]` raise `IndexError` when the string is empty at that
point, surfaced as `Except.error PyError.indexError`. -/
def cleanChars (data : List Char) : Except PyError (List Char) :=
  match data.getLast? with
  | Option.none => Except.error PyError.indexError
  | Option.some last =>
    let d1 := if last ∈ excludedChars then data.dropLast else data
    match d1.head? with
    | Option.none => Except.error PyError.indexError
    | Option.some first =>
      let d2 := if first ∈ excludedChars then d1.tail else d1
      Except.ok (pyStrip d2)

/-- Embedding of `BibliographicalAPI.__cleanStringData` (lines 49-66):
`data == None` returns `"N/A"` (line 49-50); a string goes through the
cleaning of `cleanChars` (lines 52-64); any non-string value returns
`"N/A"` (lines 65-66). -/
def cleanStringData : PyVal → Except PyError String
  | PyVal.none => Except.ok "N/A"
  | PyVal.str s => (cleanChars s.data).map String.mk
  | PyVal.int _ => Except.ok "N/A"

/-- Embedding of the `BookEntry` class (lines 5-16): title, author, ISBN,
date of publication and call number, all strings after cleaning. -/
structure BookEntry where
  title : String
  author : String
  isbn : String
  date_of_publication : String
  call_number : String
deriving DecidableEq

/-- The `records` argument of the two sort functions, as Python sees it:
`None`, an actual list, or a value of some other type. -/
inductive PyRecordsArg where
  | pynone
  | pylist (records : List BookEntry)
  | nonList

/-- Python's `<=` on strings: lexicographic comparison of the character
sequences by code point. -/
def charListLe : List Char → List Char → Bool
  | [], _ => true
  | _ :: _, [] => false
  | a :: as, b :: bs => if a < b then true else if b < a then false else charListLe as bs

/-- The key comparison `a.title <= b.title` used by the ascending title sort
(`sorted(records, key=lambda book: book.title)`, line 95). -/
def titleLe (a b : BookEntry) : Prop := charListLe a.title.data b.title.data = true

/-- The comparison for the descending title sort: Python's
`sorted(..., reverse=True)` is a stable sort placing larger keys first, i.e.
a stable sort by `b.title <= a.title`. -/
def titleGe (a b : BookEntry) : Prop := charListLe b.title.data a.title.data = true

instance : DecidableRel titleLe :=
  fun a b => inferInstanceAs (Decidable (charListLe a.title.data b.title.data = true))

instance : DecidableRel titleGe :=
  fun a b => inferInstanceAs (Decidable (charListLe b.title.data a.title.data = true))

/-- Embedding of `BibliographicalAPI.sortRecordsByTitle` (lines 92-95):
`None` or a non-list returns `[]`; otherwise a stable sort
(Python's `sorted`, modelled by `List.insertionSort`) keyed on `title`,
with `reverse=descending`. -/
def sortRecordsByTitle (records : PyRecordsArg) (descending : Bool) : List BookEntry :=
  match records with
  | PyRecordsArg.pylist rs =>
    if descending then List.insertionSort titleGe rs else List.insertionSort titleLe rs
  | _ => []

/-- One decimal digit of an ASCII numeral. -/
def isAsciiDigit (c : Char) : Bool := '0' ≤ c && c ≤ '9'

/-- Parse a non-empty run of decimal digits, accumulating into `acc`;
any non-digit character fails the parse. -/
def digitsToNat (acc : Nat) : List Char → Option Nat
  | [] => Option.some acc
  | c :: cs =>
    if isAsciiDigit c then digitsToNat (acc * 10 + (c.toNat - '0'.toNat)) cs
    else Option.none

/-- Python's `int(s)` on a string: surrounding whitespace is allowed, then an
optional sign followed by at least one decimal digit; anything else raises
`ValueError`, modelled as `Option.none`. (Underscore digit separators are not
modelled; no claim involves them.) -/
def pyIntOfString (s : String) : Option Int :=
  match pyStrip s.data with
  | [] => Option.none
  | '-' :: rest =>
    if rest = [] then Option.none
    else (digitsToNat 0 rest).map (fun n => -(n : Int))
  | '+' :: rest =>
    if rest = [] then Option.none
    else (digitsToNat 0 rest).map (fun n => (n : Int))
  | l => (digitsToNat 0 l).map (fun n => (n : Int))

/-- The sort key `int(book.date_of_publication)` (line 124), as an integer;
only meaningful when the parse succeeds (the sort raises otherwise). -/
def dateKey (b : BookEntry) : Int := (pyIntOfString b.date_of_publication).getD 0

/-- Ascending comparison on the parsed publication date. -/
def dateLe (a b : BookEntry) : Prop := dateKey a ≤ dateKey b

/-- Descending comparison on the parsed publication date (stable reverse sort). -/
def dateGe (a b : BookEntry) : Prop := dateKey b ≤ dateKey a

instance : DecidableRel dateLe := fun a b => inferInstanceAs (Decidable (dateKey a ≤ dateKey b))

instance : DecidableRel dateGe := fun a b => inferInstanceAs (Decidable (dateKey b ≤ dateKey a))

/-- Embedding of `BibliographicalAPI.sortRecordsByPublishDate` (lines 121-124):
`None` or a non-list returns `[]`; otherwise `sorted` with key
`int(book.date_of_publication)`. Python evaluates the key on every element, so
if any record's date fails to parse as an integer the whole call raises
`ValueError`; otherwise the result is the stable sort by the parsed dates. -/
def sortRecordsByPublishDate (records : PyRecordsArg) (descending : Bool) :
    Except PyError (List BookEntry) :=
  match records with
  | PyRecordsArg.pylist rs =>
    if rs.all (fun b => (pyIntOfString b.date_of_publication).isSome) then
      Except.ok (if descending then List.insertionSort dateGe rs else List.insertionSort dateLe rs)
    else Except.error PyError.valueError
  | _ => Except.ok []

/-- Truthiness of a decoded JSON value, as Python's `if member_url:` (line 173)
sees it: `None` and the empty string are falsy, a nonempty string is truthy,
an integer is truthy unless zero. -/
def pyTruthy : PyVal → Bool
  | PyVal.none => false
  | PyVal.str s => !(s.data = [])
  | PyVal.int n => !(n = 0)

/-- The detail payload consumed at lines 187-191: the five leaf fields under
`bib_data` and `holding_data`, each a loose JSON value (possibly null). -/
structure DetailPayload where
  title : PyVal
  author : PyVal
  isbn : PyVal
  date_of_publication : PyVal
  call_number : PyVal

/-- An HTTP response as the loop observes it: a status code and a decoded
body. `requests.Response.__bool__` is `status_code < 400`, which is what
`if bib_data:` (line 182) tests. -/
structure HttpResponse where
  status : Nat
  body : DetailPayload

/-- Truthiness of a `requests` response (`Response.ok`): status below 400. -/
def responseTruthy (r : HttpResponse) : Bool := r.status < 400

/-- One entry of the list response's `member` array, together with the outcome
the transport would produce for `session.get(member["link"])` (line 178):
either a response, or a raised transport error (retries exhausted). -/
structure MemberItem where
  link : PyVal
  detail : Except PyError HttpResponse

/-- Embedding of lines 187-195: clean the five fields and build a `BookEntry`.
Each `__cleanStringData` call can raise (empty-string indexing), and a raised
exception propagates out of the loop. -/
def makeBookEntry (p : DetailPayload) : Except PyError BookEntry :=
  match cleanStringData p.title with
  | Except.error e => Except.error e
  | Except.ok t =>
    match cleanStringData p.author with
    | Except.error e => Except.error e
    | Except.ok a =>
      match cleanStringData p.isbn with
      | Except.error e => Except.error e
      | Except.ok i =>
        match cleanStringData p.date_of_publication with
        | Except.error e => Except.error e
        | Except.ok dpub =>
          match cleanStringData p.call_number with
          | Except.error e => Except.error e
          | Except.ok cn => Except.ok (BookEntry.mk t a i dpub cn)

/-- Embedding of the member loop of `getRecordsFromAPI` (lines 170-206).
A falsy `link` skips the item; a detail GET that raises propagates the error
(there is no `try`/`except` in the loop); a falsy (status ≥ 400) response is
skipped silently; otherwise the record built from the decoded body is
appended, with any exception from field cleaning propagating as well. -/
def processMembers : List MemberItem → Except PyError (List BookEntry)
  | [] => Except.ok []
  | m :: rest =>
    if pyTruthy m.link then
      match m.detail with
      | Except.error e => Except.error e
      | Except.ok resp =>
        if responseTruthy resp then
          match makeBookEntry resp.body with
          | Except.error e => Except.error e
          | Except.ok entry => (processMembers rest).map (fun l => entry :: l)
        else processMembers rest
    else processMembers rest

/-- The decoded list response (line 161-163): the `member` array (each entry
paired here with its scripted detail outcome) and `total_record_count`,
which the code only prints. -/
structure ListPayload where
  member : List MemberItem
  total_record_count : Int

/-- Embedding of `getRecordsFromAPI` (lines 126-207), given the outcome of
the initial list GET: a failed list request propagates (fatal); otherwise the
member loop runs and its accumulated records are returned. -/
def getRecordsFromAPI (listRequest : Except PyError ListPayload) :
    Except PyError (List BookEntry) :=
  match listRequest with
  | Except.error e => Except.error e
  | Except.ok lp => processMembers lp.member

/-- The value `BibliographicalAPI.max_retries` (line 19), passed as `Retry(total=...)`
at line 156: the number of retries urllib3 allows on top of the first
attempt. -/
def maxRetries : Nat := 5

/-- The forcelist `status_forcelist=[400, 401]` from line 156. -/
def statusForcelist : List Nat := [400, 401]

/-- Modelled from urllib3's documented `Retry` semantics as configured at
line 156 (`Retry(total=max_retries, backoff_factor=1,
status_forcelist=[400,401])`, mounted via `HTTPAdapter`): `statuses` scripts
the status the server returns on each successive attempt. A status outside
the forcelist is returned to the caller as the response of that attempt; a
status in the forcelist consumes one retry, and when `Retry.increment` drives
the remaining total below zero a `MaxRetryError` is raised (surfacing as the
spec's `TransportError`). Returns the final status with the number of
attempts used. Backoff sleeping has no observable effect here and is not
modelled. -/
def retryRequest (forcelist : List Nat) : Nat → List Nat → Except PyError (Nat × Nat)
  | _, [] => Except.error PyError.transportError
  | total, s :: rest =>
    if s ∈ forcelist then
      match total with
      | 0 => Except.error PyError.transportError
      | t + 1 => (retryRequest forcelist t rest).map (fun r => (r.1, r.2 + 1))
    else Except.ok (s, 1)

/-- The retry-configured GET for the list endpoint: the adapter mounted at
line 157 applies `maxRetries` with `statusForcelist` to it. -/
def listGet (statuses : List Nat) : Except PyError (Nat × Nat) :=
  retryRequest statusForcelist maxRetries statuses

/-- Lower-casing of a URL, as `requests` does before matching adapter
mount points. -/
def lowerChars (l : List Char) : List Char := l.map Char.toLower

/-- Whether `p` is an initial segment of `s` (the `str.startswith` test
`requests` uses to pick the mounted adapter for a URL). -/
def startsWithChars : List Char → List Char → Bool
  | [], _ => true
  | _ :: _, [] => false
  | p :: ps, c :: cs => p = c && startsWithChars ps cs

/-- Modelled from `requests.Session` adapter selection: line 157 mounts the
retry-configured `HTTPAdapter` only at the `"https://"` mount point, so a URL
whose lower-cased form starts with `"https://"` gets `Retry(total=5,
status_forcelist=[400,401])`, while any other URL (e.g. `"http://..."`) keeps
the session's default adapter, whose `max_retries` is zero. -/
def adapterTotalForUrl (url : List Char) : Nat :=
  if startsWithChars "https://".data (lowerChars url) then maxRetries else 0

/-- The status forcelist in effect for a URL: the configured `[400, 401]`
behind the `"https://"` mount point, none for the default adapter. -/
def adapterForcelistForUrl (url : List Char) : List Nat :=
  if startsWithChars "https://".data (lowerChars url) then statusForcelist else []

/-- A GET issued through the session of `getRecordsFromAPI`: the retry policy
that applies is determined by which adapter the URL selects. -/
def sessionGet (url : List Char) (statuses : List Nat) : Except PyError (Nat × Nat) :=
  retryRequest (adapterForcelistForUrl url) (adapterTotalForUrl url) statuses

/-- C1: of the spec's four example cases for field cleaning, three hold, but
`clean("  [Hello]. ")` returns `"[Hello]."`: one trailing space and one
leading space are dropped and the remaining whitespace stripped, leaving the
bracket and period in place. -/
theorem claim1_clean_examples :
    cleanStringData PyVal.none = Except.ok "N/A"
      ∧ cleanStringData (PyVal.int 42) = Except.ok "N/A"
      ∧ cleanStringData (PyVal.str "  [Hello]. ") = Except.ok "[Hello]."
      ∧ cleanStringData (PyVal.str "plain") = Except.ok "plain" :=
  ⟨rfl, rfl, rfl, rfl⟩

/-- C1 counterexample: `clean("  [Hello]. ")` does not return `"Hello"` as
the claim states. -/
theorem claim1_counterexample :
    cleanStringData (PyVal.str "  [Hello]. ") ≠ Except.ok "Hello" := by
  rw [show cleanStringData (PyVal.str "  [Hello]. ") = Except.ok "[Hello]." from rfl]
  intro h
  exact absurd (Except.ok.inj h) (by decide)

/-- C3: the configured policy allows 5 retries, i.e. up to 6 total attempts.
The sequence [400, 401, 400, 200] succeeds on the 4th attempt; five
consecutive 400s do not exhaust the retries (a 6th attempt is issued, and a
200 there succeeds); six consecutive 400s exhaust the retries and raise the
transport error. -/
theorem claim3_retry_policy :
    listGet [400, 401, 400, 200] = Except.ok (200, 4)
      ∧ listGet [400, 400, 400, 400, 400, 200] = Except.ok (200, 6)
      ∧ listGet [400, 400, 400, 400, 400, 400] = Except.error PyError.transportError :=
  ⟨rfl, rfl, rfl⟩

/-- C3 counterexample: a sequence of five consecutive 400s does not exhaust
the retries and raise `TransportError` — a sixth attempt is issued (and
succeeds here), so the maximum is 6 attempts, not 5. -/
theorem claim3_counterexample :
    listGet [400, 400, 400, 400, 400, 200] ≠ Except.error PyError.transportError := by
  rw [show listGet [400, 400, 400, 400, 400, 200] = Except.ok (200, 6) from rfl]
  intro h
  cases h

/-- C4 (amended): cleaning the empty string raises `IndexError` — the code
evaluates `data[-1]` on the empty string unguarded. -/
theorem claim4_empty_string_raises :
    cleanStringData (PyVal.str "") = Except.error PyError.indexError := rfl

/-- C4 counterexample: `clean("")` does not return normally. -/
theorem claim4_counterexample :
    (cleanStringData (PyVal.str "")).isOk = false := rfl

/-- Stripping whitespace does nothing to a character list whose first and
last characters are not whitespace. -/
theorem pyStrip_no_space (d c1 : Char) (t : List Char)
    (hds : isPySpace d = false) (hc1s : isPySpace c1 = false) :
    pyStrip (d :: t ++ [c1]) = d :: t ++ [c1] := by
  unfold pyStrip
  rw [show d :: t ++ [c1] = (d :: t) ++ [c1] from rfl]
  simp [List.dropWhile_cons, List.dropWhile_append, List.reverse_append, hds, hc1s]

/-- C8: cleaning a non-empty string is single-pass. For a string whose first
character is neither excluded nor whitespace and which ends in two excluded
non-whitespace characters, exactly the outermost trailing excluded character
is dropped: the inner one (and everything else) survives. -/
theorem claim8_single_pass (d c1 c2 : Char) (t : List Char)
    (hd : d ∉ excludedChars) (hds : isPySpace d = false)
    (_hc1 : c1 ∈ excludedChars) (hc1s : isPySpace c1 = false)
    (hc2 : c2 ∈ excludedChars) :
    cleanStringData (PyVal.str (String.mk (d :: t ++ [c1, c2])))
      = Except.ok (String.mk (d :: t ++ [c1])) := by
  show (cleanChars (d :: t ++ [c1, c2])).map String.mk = _
  rw [show d :: t ++ [c1, c2] = (d :: t ++ [c1]) ++ [c2] by simp]
  unfold cleanChars
  rw [List.getLast?_concat]
  simp only [if_pos hc2, List.dropLast_concat]
  show Except.map String.mk
      (Except.ok (pyStrip (if d ∈ excludedChars then (d :: t ++ [c1]).tail else d :: t ++ [c1])))
    = _
  rw [if_neg hd, pyStrip_no_space d c1 t hds hc1s]
  rfl

/-- C8 witness: cleaning `"ab.."` keeps the inner period, yielding `"ab."`. -/
theorem claim8_witness :
    ('a' ∉ excludedChars) ∧ isPySpace 'a' = false
      ∧ ('.' ∈ excludedChars) ∧ isPySpace '.' = false
      ∧ cleanStringData (PyVal.str (String.mk ('a' :: ['b'] ++ ['.', '.'])))
        = Except.ok (String.mk ('a' :: ['b'] ++ ['.'])) :=
  ⟨by decide, by decide, by decide, by decide,
    claim8_single_pass 'a' '.' '.' ['b'] (by decide) (by decide) (by decide) (by decide)
      (by decide)⟩

/-- C2 (amended): for a member item with a detail link, a detail GET that
returns a falsy (status ≥ 400) response is skipped silently — it contributes
no record and the remaining items are still processed — but a detail GET that
fails after retries raises, aborting the whole fetch: the error propagates out
of `getRecordsFromAPI` (the loop has no exception handling) and the partial
results are lost. -/
theorem claim2_detail_failure (m : MemberItem) (rest : List MemberItem) (n : Int)
    (hlink : pyTruthy m.link = true) :
    (∀ resp, m.detail = Except.ok resp → responseTruthy resp = false →
        getRecordsFromAPI (Except.ok (ListPayload.mk (m :: rest) n))
          = getRecordsFromAPI (Except.ok (ListPayload.mk rest n)))
      ∧ ∀ e, m.detail = Except.error e →
          getRecordsFromAPI (Except.ok (ListPayload.mk (m :: rest) n))
            = Except.error e := by
  constructor
  · intro resp hresp hfalsy
    show processMembers (m :: rest) = processMembers rest
    conv_lhs => unfold processMembers
    rw [hresp]
    simp [hlink, hfalsy]
  · intro e herr
    show processMembers (m :: rest) = Except.error e
    conv_lhs => unfold processMembers
    rw [herr]
    simp [hlink]

/-- C2 counterexample: when the first member's detail GET fails after retries,
the fetch does not skip it and return the second member's record — it raises,
and the whole call fails. -/
theorem claim2_counterexample :
    getRecordsFromAPI (Except.ok (ListPayload.mk
        [MemberItem.mk (PyVal.str "https://x/1") (Except.error PyError.transportError),
          MemberItem.mk (PyVal.str "https://x/2") (Except.ok (HttpResponse.mk 200
            (DetailPayload.mk (PyVal.str "T") (PyVal.str "A") (PyVal.str "I")
              (PyVal.str "2001") (PyVal.str "C"))))] 2))
      = Except.error PyError.transportError := rfl

/-- C2 witness: a member whose detail GET returns a falsy 404 response is
skipped, leaving the fetch equal to the fetch over the remaining members. -/
theorem claim2_witness :
    getRecordsFromAPI (Except.ok (ListPayload.mk
        [MemberItem.mk (PyVal.str "https://x/1") (Except.ok (HttpResponse.mk 404
          (DetailPayload.mk PyVal.none PyVal.none PyVal.none PyVal.none PyVal.none)))] 1))
      = getRecordsFromAPI (Except.ok (ListPayload.mk [] 1)) :=
  (claim2_detail_failure
      (MemberItem.mk (PyVal.str "https://x/1") (Except.ok (HttpResponse.mk 404
        (DetailPayload.mk PyVal.none PyVal.none PyVal.none PyVal.none PyVal.none)))) [] 1
      rfl).1
    (HttpResponse.mk 404
      (DetailPayload.mk PyVal.none PyVal.none PyVal.none PyVal.none PyVal.none)) rfl rfl

/-- C7: with three member entries of which the second carries `link: null`
and the other two carry truthy links whose detail GETs return truthy
responses with well-formed payloads, the fetch returns exactly the two
records of the valid entries, in encounter order; the link-less item is
skipped with no error and no record. -/
theorem claim7_three_members (m1 m2 m3 : MemberItem) (r1 r3 : HttpResponse)
    (e1 e3 : BookEntry) (n : Int)
    (h1 : pyTruthy m1.link = true) (hd1 : m1.detail = Except.ok r1)
    (ht1 : responseTruthy r1 = true) (he1 : makeBookEntry r1.body = Except.ok e1)
    (h2 : m2.link = PyVal.none)
    (h3 : pyTruthy m3.link = true) (hd3 : m3.detail = Except.ok r3)
    (ht3 : responseTruthy r3 = true) (he3 : makeBookEntry r3.body = Except.ok e3) :
    getRecordsFromAPI (Except.ok (ListPayload.mk [m1, m2, m3] n)) = Except.ok [e1, e3] := by
  show processMembers [m1, m2, m3] = Except.ok [e1, e3]
  simp only [processMembers, hd1, hd3]
  rw [h2]
  simp [h1, h3, ht1, ht3, he1, he3, (show pyTruthy PyVal.none = false from rfl), Except.map]

/-- C7 witness: a concrete three-member list response — a null link between
two valid members — yields exactly the two records, in order. -/
theorem claim7_witness :
    getRecordsFromAPI (Except.ok (ListPayload.mk
        [MemberItem.mk (PyVal.str "https://x/1") (Except.ok (HttpResponse.mk 200
            (DetailPayload.mk (PyVal.str "T1") (PyVal.str "A1") (PyVal.str "I1")
              (PyVal.str "2001") (PyVal.str "C1")))),
          MemberItem.mk PyVal.none (Except.error PyError.transportError),
          MemberItem.mk (PyVal.str "https://x/3") (Except.ok (HttpResponse.mk 200
            (DetailPayload.mk (PyVal.str "T3") (PyVal.str "A3") (PyVal.str "I3")
              (PyVal.str "2003") (PyVal.str "C3"))))] 3))
      = Except.ok [BookEntry.mk "T1" "A1" "I1" "2001" "C1",
          BookEntry.mk "T3" "A3" "I3" "2003" "C3"] :=
  claim7_three_members
    (MemberItem.mk (PyVal.str "https://x/1") (Except.ok (HttpResponse.mk 200
      (DetailPayload.mk (PyVal.str "T1") (PyVal.str "A1") (PyVal.str "I1")
        (PyVal.str "2001") (PyVal.str "C1")))))
    (MemberItem.mk PyVal.none (Except.error PyError.transportError))
    (MemberItem.mk (PyVal.str "https://x/3") (Except.ok (HttpResponse.mk 200
      (DetailPayload.mk (PyVal.str "T3") (PyVal.str "A3") (PyVal.str "I3")
        (PyVal.str "2003") (PyVal.str "C3")))))
    (HttpResponse.mk 200 (DetailPayload.mk (PyVal.str "T1") (PyVal.str "A1") (PyVal.str "I1")
      (PyVal.str "2001") (PyVal.str "C1")))
    (HttpResponse.mk 200 (DetailPayload.mk (PyVal.str "T3") (PyVal.str "A3") (PyVal.str "I3")
      (PyVal.str "2003") (PyVal.str "C3")))
    (BookEntry.mk "T1" "A1" "I1" "2001" "C1") (BookEntry.mk "T3" "A3" "I3" "2003" "C3") 3
    rfl rfl rfl rfl rfl rfl rfl rfl rfl

/-- C9: both sort functions return an empty sequence on invalid input:
the empty list sorts to the empty list, and `None` (not a list) yields the
empty result for the title sort and for the publication-date sort in either
direction, rather than failing. -/
theorem claim9_invalid_input_guard :
    sortRecordsByTitle (PyRecordsArg.pylist []) false = []
      ∧ sortRecordsByTitle PyRecordsArg.pynone false = []
      ∧ sortRecordsByPublishDate PyRecordsArg.pynone false = Except.ok []
      ∧ sortRecordsByPublishDate PyRecordsArg.pynone true = Except.ok [] :=
  ⟨rfl, rfl, rfl, rfl⟩

/-- C6: the publication-date sort fails with the parse error exactly when
some record's date field is not integer-parseable; a record built from a
detail payload whose `date_of_publication` is null carries the sentinel
`"N/A"`, and sorting any result set containing such a record raises. -/
theorem claim6_date_sort (rs : List BookEntry) (d : Bool) :
    (sortRecordsByPublishDate (PyRecordsArg.pylist rs) d = Except.error PyError.valueError
        ↔ ∃ b ∈ rs, pyIntOfString b.date_of_publication = Option.none)
      ∧ ∀ (p : DetailPayload) (e : BookEntry), p.date_of_publication = PyVal.none →
          makeBookEntry p = Except.ok e →
          e.date_of_publication = "N/A"
            ∧ ∀ rest : List BookEntry,
                sortRecordsByPublishDate (PyRecordsArg.pylist (e :: rest)) d
                  = Except.error PyError.valueError := by
  constructor
  · constructor
    · intro h
      by_contra hno
      push_neg at hno
      have hall : rs.all (fun b => (pyIntOfString b.date_of_publication).isSome) = true := by
        rw [List.all_eq_true]
        intro b hb
        rcases hsome : pyIntOfString b.date_of_publication with _ | v
        · exact absurd hsome (hno b hb)
        · simp
      simp [sortRecordsByPublishDate, hall] at h
    · rintro ⟨b, hb, hnone⟩
      have hall : rs.all (fun b => (pyIntOfString b.date_of_publication).isSome) = false := by
        rw [Bool.eq_false_iff, Ne, List.all_eq_true]
        intro hforall
        have hbb := hforall b hb
        rw [hnone] at hbb
        simp at hbb
      simp [sortRecordsByPublishDate, hall]
  · intro p e hp he
    have hdate : e.date_of_publication = "N/A" := by
      unfold makeBookEntry at he
      rw [hp] at he
      simp only [cleanStringData] at he
      split at he
      · cases he
      · split at he
        · cases he
        · split at he
          · cases he
          · split at he
            · cases he
            · cases he
              rfl
    refine ⟨hdate, ?_⟩
    intro rest
    have hna : pyIntOfString e.date_of_publication = Option.none := by
      rw [hdate]; rfl
    simp [sortRecordsByPublishDate, List.all_cons, hna]

/-- C6 witness: a record whose detail payload had a null date carries
`"N/A"`, and date-sorting a singleton list holding it raises the parse
error. -/
theorem claim6_witness :
    sortRecordsByPublishDate (PyRecordsArg.pylist [BookEntry.mk "T" "A" "I" "N/A" "C"]) false
        = Except.error PyError.valueError
      ∧ (BookEntry.mk "T" "A" "I" "N/A" "C").date_of_publication = "N/A" :=
  ⟨((claim6_date_sort [BookEntry.mk "T" "A" "I" "N/A" "C"] false).1).mpr
      ⟨BookEntry.mk "T" "A" "I" "N/A" "C", by simp, rfl⟩,
    ((claim6_date_sort [] false).2
        (DetailPayload.mk (PyVal.str "T") (PyVal.str "A") (PyVal.str "I") PyVal.none
          (PyVal.str "C"))
        (BookEntry.mk "T" "A" "I" "N/A" "C") rfl rfl).1⟩

/-- A URL starting with `"http://"` cannot also start with `"https://"`:
the fifth characters differ. -/
theorem startsWith_http_not_https (l : List Char)
    (h : startsWithChars "http://".data l = true) :
    startsWithChars "https://".data l = false := by
  match l with
  | [] => simp [startsWithChars] at h
  | a :: b :: c :: d :: e :: rest =>
    simp only [show "http://".data = ['h','t','t','p',':','/','/'] from rfl,
      show "https://".data = ['h','t','t','p','s',':','/','/'] from rfl,
      startsWithChars, Bool.and_eq_true, decide_eq_true_eq] at h ⊢
    obtain ⟨h1, h2, h3, h4, h5, _⟩ := h
    subst h1; subst h2; subst h3; subst h4; subst h5
    simp
  | [a] => simp [startsWithChars] at h
  | [a, b] => simp [startsWithChars] at h
  | [a, b, c] => simp [startsWithChars] at h
  | [a, b, c, d] => simp [startsWithChars] at h

/-- C10: the retry-configured adapter is mounted only for `"https://"` URLs.
For a URL using plain `"http://"`, the session's default adapter applies —
zero retries, no status forcelist — so the very first response is returned
whatever its status (even a 400), and the 400/401 retry policy never fires. -/
theorem claim10_http_no_retry (url : List Char) (s : Nat) (rest : List Nat)
    (h : startsWithChars "http://".data (lowerChars url) = true) :
    adapterTotalForUrl url = 0 ∧ adapterForcelistForUrl url = []
      ∧ sessionGet url (s :: rest) = Except.ok (s, 1) := by
  have hn := startsWith_http_not_https (lowerChars url) h
  refine ⟨?_, ?_, ?_⟩ <;>
    simp [adapterTotalForUrl, adapterForcelistForUrl, sessionGet, hn, retryRequest]

/-- C10 witness: a GET to a plain-http URL returns the first response even
when it is a 400 — no retry happens. -/
theorem claim10_witness :
    startsWithChars "http://".data (lowerChars "http://api.example.org".data) = true
      ∧ sessionGet "http://api.example.org".data [400, 200] = Except.ok (400, 1) :=
  ⟨rfl, (claim10_http_no_retry "http://api.example.org".data 400 [200] rfl).2.2⟩

/-- The Python string order is total. -/
theorem charListLe_total : ∀ a b : List Char, charListLe a b = true ∨ charListLe b a = true
  | [], _ => Or.inl rfl
  | _ :: _, [] => Or.inr rfl
  | a :: as, b :: bs => by
    by_cases hab : a < b
    · left; simp [charListLe, hab]
    · by_cases hba : b < a
      · right; simp [charListLe, hba]
      · have hEq : a = b := le_antisymm (not_lt.mp hba) (not_lt.mp hab)
        subst hEq
        rcases charListLe_total as bs with h | h
        · left; simp [charListLe, h, lt_irrefl]
        · right; simp [charListLe, h, lt_irrefl]

/-- The Python string order is transitive. -/
theorem charListLe_trans : ∀ a b c : List Char,
    charListLe a b = true → charListLe b c = true → charListLe a c = true
  | [], _, _, _, _ => rfl
  | a :: as, [], _, h1, _ => by simp [charListLe] at h1
  | a :: as, b :: bs, [], _, h2 => by simp [charListLe] at h2
  | a :: as, b :: bs, c :: cs, h1, h2 => by
    simp only [charListLe] at h1 h2 ⊢
    by_cases hab : a < b
    · by_cases hbc : b < c
      · simp [lt_trans hab hbc]
      · by_cases hcb : c < b
        · simp [hbc, hcb] at h2
        · have : b = c := le_antisymm (not_lt.mp hcb) (not_lt.mp hbc)
          subst this
          simp [hab]
    · by_cases hba : b < a
      · simp [hab, hba] at h1
      · have : a = b := le_antisymm (not_lt.mp hba) (not_lt.mp hab)
        subst this
        by_cases hbc : a < c
        · simp [hbc]
        · by_cases hcb : c < a
          · simp [hbc, hcb] at h2
          · have : a = c := le_antisymm (not_lt.mp hcb) (not_lt.mp hbc)
            subst this
            simp [lt_irrefl] at h1 h2 ⊢
            exact charListLe_trans as bs cs h1 h2

/-- The Python string order is antisymmetric. -/
theorem charListLe_antisymm : ∀ a b : List Char,
    charListLe a b = true → charListLe b a = true → a = b
  | [], [], _, _ => rfl
  | [], _ :: _, _, h2 => by simp [charListLe] at h2
  | _ :: _, [], h1, _ => by simp [charListLe] at h1
  | a :: as, b :: bs, h1, h2 => by
    simp only [charListLe] at h1 h2
    by_cases hab : a < b
    · simp [hab, lt_asymm hab] at h2
    · by_cases hba : b < a
      · simp [hab, hba] at h1
      · have hEq : a = b := le_antisymm (not_lt.mp hba) (not_lt.mp hab)
        subst hEq
        simp [lt_irrefl] at h1 h2
        rw [charListLe_antisymm as bs h1 h2]

/-- Inserting an element strictly greater than everything in the list puts it
at the end. -/
theorem orderedInsert_end (a : BookEntry) : ∀ M : List BookEntry,
    (∀ b ∈ M, ¬ titleGe a b) → List.orderedInsert titleGe a M = M ++ [a]
  | [], _ => rfl
  | b :: M, h => by
    rw [List.orderedInsert, if_neg (h b (List.mem_cons_self b M)),
      orderedInsert_end a M (fun x hx => h x (List.mem_cons_of_mem b hx))]
    rfl

/-- The descending stable sort of a strictly ascending list is its reverse. -/
theorem insertionSort_ge_strict : ∀ L : List BookEntry,
    L.Pairwise (fun x y => charListLe y.title.data x.title.data = false) →
    List.insertionSort titleGe L = L.reverse
  | [], _ => rfl
  | a :: L, h => by
    obtain ⟨ha, hL⟩ := List.pairwise_cons.mp h
    rw [List.insertionSort, insertionSort_ge_strict L hL,
      orderedInsert_end a L.reverse
        (fun b hb hge => by simp [titleGe, ha b (List.mem_reverse.mp hb)] at hge),
      List.reverse_cons]

/-- A list sorted by title whose titles are pairwise distinct is strictly
ascending. -/
theorem pairwise_strict_of (L : List BookEntry) (h1 : L.Pairwise titleLe)
    (h2 : L.Pairwise fun x y => x.title ≠ y.title) :
    L.Pairwise fun x y => charListLe y.title.data x.title.data = false := by
  induction L with
  | nil => exact List.Pairwise.nil
  | cons a L ih =>
    rw [List.pairwise_cons] at h1 h2 ⊢
    refine ⟨?_, ih h1.2 h2.2⟩
    intro b hb
    have hle : titleLe a b := h1.1 b hb
    have hne : a.title ≠ b.title := h2.1 b hb
    cases hcb : charListLe b.title.data a.title.data with
    | false => rfl
    | true =>
      exfalso
      exact hne (congrArg String.mk (charListLe_antisymm _ _ hle hcb))

/-- C5 (amended): when all titles are pairwise distinct, the descending title
sort of the ascending title sort is exactly its reverse. (With tied titles
this fails — see the counterexample — because each direction is
independently stable: equal-title records keep their original relative order
in both directions.) -/
theorem claim5_desc_mirror (rs : List BookEntry)
    (hdist : rs.Pairwise (fun x y : BookEntry => x.title ≠ y.title)) :
    sortRecordsByTitle (PyRecordsArg.pylist (sortRecordsByTitle (PyRecordsArg.pylist rs) false))
        true
      = (sortRecordsByTitle (PyRecordsArg.pylist rs) false).reverse := by
  show List.insertionSort titleGe (List.insertionSort titleLe rs)
      = (List.insertionSort titleLe rs).reverse
  haveI : IsTotal BookEntry titleLe :=
    ⟨fun a b => charListLe_total a.title.data b.title.data⟩
  haveI : IsTrans BookEntry titleLe :=
    ⟨fun a b c => charListLe_trans a.title.data b.title.data c.title.data⟩
  have hsorted : List.Sorted titleLe (List.insertionSort titleLe rs) :=
    List.sorted_insertionSort titleLe rs
  have hperm : (List.insertionSort titleLe rs).Perm rs := List.perm_insertionSort titleLe rs
  have hdist' : (List.insertionSort titleLe rs).Pairwise (fun x y => x.title ≠ y.title) :=
    (hperm.pairwise_iff (fun h => h.symm)).mpr hdist
  exact insertionSort_ge_strict _ (pairwise_strict_of _ hsorted hdist')

/-- C5 counterexample: with two records sharing the title `"t"`, the
descending sort of the ascending sort keeps them in their original order
(stability in each direction independently), so it is not the exact reverse
of the ascending order. -/
theorem claim5_counterexample :
    sortRecordsByTitle (PyRecordsArg.pylist
        (sortRecordsByTitle (PyRecordsArg.pylist
          [BookEntry.mk "t" "a1" "i" "1" "c", BookEntry.mk "t" "a2" "i" "2" "c"]) false)) true
      ≠ (sortRecordsByTitle (PyRecordsArg.pylist
          [BookEntry.mk "t" "a1" "i" "1" "c", BookEntry.mk "t" "a2" "i" "2" "c"]) false).reverse := by
  intro h
  rw [show sortRecordsByTitle (PyRecordsArg.pylist
        (sortRecordsByTitle (PyRecordsArg.pylist
          [BookEntry.mk "t" "a1" "i" "1" "c", BookEntry.mk "t" "a2" "i" "2" "c"]) false)) true
      = [BookEntry.mk "t" "a1" "i" "1" "c", BookEntry.mk "t" "a2" "i" "2" "c"] from rfl] at h
  rw [show (sortRecordsByTitle (PyRecordsArg.pylist
        [BookEntry.mk "t" "a1" "i" "1" "c", BookEntry.mk "t" "a2" "i" "2" "c"]) false).reverse
      = [BookEntry.mk "t" "a2" "i" "2" "c", BookEntry.mk "t" "a1" "i" "1" "c"] from rfl] at h
  have := (List.cons.injEq _ _ _ _).mp h
  exact absurd this.1 (by decide)

/-- C5 witness: two records with distinct titles, where the descending sort
of the ascending sort is the exact reverse. -/
theorem claim5_witness :
    List.Pairwise (fun x y : BookEntry => x.title ≠ y.title)
        [BookEntry.mk "b" "x" "y" "1" "z", BookEntry.mk "a" "x" "y" "2" "z"]
      ∧ sortRecordsByTitle (PyRecordsArg.pylist (sortRecordsByTitle (PyRecordsArg.pylist
            [BookEntry.mk "b" "x" "y" "1" "z", BookEntry.mk "a" "x" "y" "2" "z"]) false)) true
        = (sortRecordsByTitle (PyRecordsArg.pylist
            [BookEntry.mk "b" "x" "y" "1" "z", BookEntry.mk "a" "x" "y" "2" "z"]) false).reverse :=
  ⟨by decide, claim5_desc_mirror _ (by decide)⟩

end ILS
